import Mathlib

/-!
Verification of the relational data model and CRUD services of the
UsersPythonAPI repository (FastAPI/app).

The embedding models the four Peewee-backed services
(`services/roles_service.py`, `services/user_service.py`,
`services/groups_service.py`, `services/user_groups_service.py`) operating
over the MySQL schema declared in `app/database.py` (row shapes, foreign
keys and the per-edge `on_delete='CASCADE'` declarations on
`UserModel.role_id`, `UserGroupsModel.user_id`, `UserGroupsModel.group_id`)
together with the column constraints declared in `app/config/migrations.py`
(`Role.name` and `User.email` carry `unique=True`).  The database state is a
quadruple of row lists plus the auto-increment counters; each service method
is translated clause by clause from its Python body, with Peewee
`DoesNotExist` / MySQL `IntegrityError` surfacing as the explicit error
values the Python code raises (an `HTTPException` with the literal status
and detail of the source, or an uncaught `IntegrityError`).
-/

/-- Row of the `roles` table (`app/database.py`, `RolesModel`):
auto-increment `id`, `name`, `description`. -/
structure RolesModel where
  id : Nat
  name : String
  description : String
  deriving DecidableEq, Repr

/-- Row of the `users` table (`app/database.py`, `UserModel`):
auto-increment `id`, profile fields, and `role_id`, a foreign key to
`roles` declared with `on_delete='CASCADE'`. -/
structure UserModel where
  id : Nat
  name : String
  email : String
  password : String
  profile_photo : String
  account_type : String
  role_id : Nat
  deriving DecidableEq, Repr

/-- Row of the `groups` table (`app/database.py`, `GroupsModel`). -/
structure GroupsModel where
  id : Nat
  name : String
  description : String
  deriving DecidableEq, Repr

/-- Row of the `user_groups` table (`app/database.py`, `UserGroupsModel`):
its own auto-increment surrogate `id` plus foreign keys `user_id` and
`group_id`, both declared with `on_delete='CASCADE'`. -/
structure UserGroupsModel where
  id : Nat
  user_id : Nat
  group_id : Nat
  deriving DecidableEq, Repr

/-- Request body for a role (`app/models/roles.py`, Pydantic `Roles`). -/
structure Roles where
  name : String
  description : String
  deriving DecidableEq, Repr

/-- Request body for a user (`app/models/user.py`, Pydantic `User`). -/
structure User where
  name : String
  email : String
  password : String
  profile_photo : String
  account_type : String
  role_id : Nat
  deriving DecidableEq, Repr

/-- Request body for a group (`app/models/groups.py`, Pydantic `Groups`). -/
structure Groups where
  name : String
  description : String
  deriving DecidableEq, Repr

/-- Request body for a user-group association
(`app/models/user_groups.py`, Pydantic `UserGroups`). -/
structure UserGroups where
  user_id : Nat
  group_id : Nat
  deriving DecidableEq, Repr

/-- Error values a service call can surface: `httpException s d` is the
`fastapi.HTTPException(status_code=s, detail=d)` the service raises, and
`integrityError` is a Peewee `IntegrityError` that escapes the service
uncaught (the `update_*` methods only catch `DoesNotExist`). -/
inductive SvcError where
  | httpException (status : Nat) (detail : String)
  | integrityError
  deriving DecidableEq, Repr

deriving instance DecidableEq for Except

/-- State of the MySQL database backing the services: the four tables in
insertion order plus the auto-increment counter of each table. -/
structure DBState where
  roles : List RolesModel
  users : List UserModel
  groups : List GroupsModel
  user_groups : List UserGroupsModel
  next_role_id : Nat
  next_user_id : Nat
  next_group_id : Nat
  next_user_group_id : Nat
  deriving DecidableEq, Repr

/-- The empty database, auto-increment counters starting at 1 as in MySQL. -/
def emptyDB : DBState :=
  { roles := [], users := [], groups := [], user_groups := []
    next_role_id := 1, next_user_id := 1, next_group_id := 1, next_user_group_id := 1 }

/-- Peewee `RolesModel.get(RolesModel.id == i)`: the first row whose
primary key equals `i`, or `DoesNotExist` (`none`). -/
def rolesGet (s : DBState) (i : Nat) : Option RolesModel :=
  s.roles.find? (fun r => r.id == i)

/-- Peewee `UserModel.get(UserModel.id == i)`. -/
def usersGet (s : DBState) (i : Nat) : Option UserModel :=
  s.users.find? (fun u => u.id == i)

/-- Peewee `GroupsModel.get(GroupsModel.id == i)`. -/
def groupsGet (s : DBState) (i : Nat) : Option GroupsModel :=
  s.groups.find? (fun g => g.id == i)

/-- Peewee `UserGroupsModel.get(UserGroupsModel.id == i)`. -/
def userGroupsGet (s : DBState) (i : Nat) : Option UserGroupsModel :=
  s.user_groups.find? (fun ug => ug.id == i)

/-- MySQL `INSERT` into `roles` as issued by `RolesModel.create`: the
`unique=True` constraint on `Role.name` (`config/migrations.py`) makes a
duplicate name raise `IntegrityError` (`none`); otherwise the row is
appended with the next auto-increment id. -/
def rolesInsert (s : DBState) (role : Roles) : Option (RolesModel × DBState) :=
  if s.roles.any (fun r => r.name == role.name) then none
  else
    let row : RolesModel := ⟨s.next_role_id, role.name, role.description⟩
    some (row, { s with roles := s.roles ++ [row], next_role_id := s.next_role_id + 1 })

/-- MySQL `INSERT` into `users` as issued by `UserModel.create`: the
foreign key on `role_id` (`app/database.py`) requires an existing role and
the `unique=True` constraint on `User.email` (`config/migrations.py`)
forbids a duplicate email; either violation raises `IntegrityError`. -/
def usersInsert (s : DBState) (user : User) : Option (UserModel × DBState) :=
  if !(s.roles.any (fun r => r.id == user.role_id))
      || s.users.any (fun u => u.email == user.email) then none
  else
    let row : UserModel :=
      ⟨s.next_user_id, user.name, user.email, user.password,
        user.profile_photo, user.account_type, user.role_id⟩
    some (row, { s with users := s.users ++ [row], next_user_id := s.next_user_id + 1 })

/-- MySQL `INSERT` into `groups` as issued by `GroupsModel.create`: the
table declares no constraint beyond the primary key, so the insert always
succeeds. -/
def groupsInsert (s : DBState) (group : Groups) : GroupsModel × DBState :=
  let row : GroupsModel := ⟨s.next_group_id, group.name, group.description⟩
  (row, { s with groups := s.groups ++ [row], next_group_id := s.next_group_id + 1 })

/-- MySQL `INSERT` into `user_groups` as issued by `UserGroupsModel.create`:
both foreign keys must reference existing rows; no uniqueness is declared on
the `(user_id, group_id)` pair in either schema variant, so duplicate pairs
insert freely under fresh surrogate ids. -/
def userGroupsInsert (s : DBState) (ug : UserGroups) : Option (UserGroupsModel × DBState) :=
  if !(s.users.any (fun u => u.id == ug.user_id))
      || !(s.groups.any (fun g => g.id == ug.group_id)) then none
  else
    let row : UserGroupsModel := ⟨s.next_user_group_id, ug.user_id, ug.group_id⟩
    some (row, { s with user_groups := s.user_groups ++ [row],
                        next_user_group_id := s.next_user_group_id + 1 })

/-- Constraint check MySQL performs on the `UPDATE` issued by
`u_role.save()`: the new `name` must not collide with another role's name
(`unique=True` on `Role.name`). -/
def rolesSaveOk (s : DBState) (i : Nat) (role : Roles) : Bool :=
  !(s.roles.any (fun r => r.id != i && r.name == role.name))

/-- Constraint check MySQL performs on the `UPDATE` issued by
`u_user.save()`: `role_id` must reference an existing role and the new
`email` must not collide with another user's email. -/
def usersSaveOk (s : DBState) (i : Nat) (user : User) : Bool :=
  s.roles.any (fun r => r.id == user.role_id)
    && !(s.users.any (fun u => u.id != i && u.email == user.email))

/-- Constraint check MySQL performs on the `UPDATE` issued by
`u_group.save()` in the user-groups service: both foreign keys must
reference existing rows. -/
def userGroupsSaveOk (s : DBState) (ug : UserGroups) : Bool :=
  s.users.any (fun u => u.id == ug.user_id)
    && s.groups.any (fun g => g.id == ug.group_id)

/-- MySQL `DELETE FROM roles WHERE id = i` under the cascade edges declared
in `app/database.py`: the role row goes, `ON DELETE CASCADE` on
`users.role_id` removes its users, and the cascade chains through
`user_groups.user_id` to remove those users' association rows. -/
def rolesCascadeDelete (s : DBState) (i : Nat) : DBState :=
  let deadUsers := s.users.filter (fun u => u.role_id == i)
  { s with roles := s.roles.filter (fun r => r.id != i)
           users := s.users.filter (fun u => u.role_id != i)
           user_groups := s.user_groups.filter
             (fun ug => !(deadUsers.any (fun u => u.id == ug.user_id))) }

/-- MySQL `DELETE FROM users WHERE id = i`: `ON DELETE CASCADE` on
`user_groups.user_id` removes the user's association rows. -/
def usersCascadeDelete (s : DBState) (i : Nat) : DBState :=
  { s with users := s.users.filter (fun u => u.id != i)
           user_groups := s.user_groups.filter (fun ug => ug.user_id != i) }

/-- MySQL `DELETE FROM groups WHERE id = i`: `ON DELETE CASCADE` on
`user_groups.group_id` removes the group's association rows. -/
def groupsCascadeDelete (s : DBState) (i : Nat) : DBState :=
  { s with groups := s.groups.filter (fun g => g.id != i)
           user_groups := s.user_groups.filter (fun ug => ug.group_id != i) }

/-- MySQL `DELETE FROM user_groups WHERE id = i`: no table references
`user_groups`, so nothing cascades. -/
def userGroupsDelete (s : DBState) (i : Nat) : DBState :=
  { s with user_groups := s.user_groups.filter (fun ug => ug.id != i) }

namespace RolesService

/-- `RolesService.get_role`: fetch by primary key, 404 on `DoesNotExist`. -/
def get_role (s : DBState) (role_id : Nat) : Except SvcError RolesModel :=
  match rolesGet s role_id with
  | some role => .ok role
  | none => .error (.httpException 404 "Role not found")

/-- `RolesService.create_role`: `RolesModel.create(name=..., description=...)`;
`IntegrityError` is caught and re-raised as `HTTPException(500, ...)`. -/
def create_role (s : DBState) (role : Roles) : Except SvcError RolesModel × DBState :=
  match rolesInsert s role with
  | some (created_role, s') => (.ok created_role, s')
  | none => (.error (.httpException 500 "An error occurred while creating the role"), s)

/-- `RolesService.update_role`: fetch by id (404 on `DoesNotExist`), assign
`name` and `description`, `save()`; an `IntegrityError` from the save is not
caught and escapes. -/
def update_role (s : DBState) (role_id : Nat) (role : Roles) :
    Except SvcError RolesModel × DBState :=
  match rolesGet s role_id with
  | none => (.error (.httpException 404 "Role not found"), s)
  | some u_role =>
    if rolesSaveOk s role_id role then
      let newRow : RolesModel := { u_role with name := role.name, description := role.description }
      (.ok newRow,
        { s with roles := s.roles.map (fun r => if r.id == role_id then newRow else r) })
    else (.error .integrityError, s)

/-- `RolesService.delete_role`:
`RolesModel.delete().where(RolesModel.id == role_id).execute()` runs the
(cascading) `DELETE` and returns a row count, so `DoesNotExist` is never
raised; the service returns the success payload unconditionally. -/
def delete_role (s : DBState) (role_id : Nat) : Except SvcError String × DBState :=
  (.ok "Role deleted", rolesCascadeDelete s role_id)

end RolesService

namespace UserService

/-- `UserService.get_user`: fetch by primary key, 404 on `DoesNotExist`. -/
def get_user (s : DBState) (user_id : Nat) : Except SvcError UserModel :=
  match usersGet s user_id with
  | some user => .ok user
  | none => .error (.httpException 404 "User not found")

/-- `UserService.create_user`: `UserModel.create(...)`; `IntegrityError`
is caught and re-raised as `HTTPException(500, ...)`. -/
def create_user (s : DBState) (user : User) : Except SvcError UserModel × DBState :=
  match usersInsert s user with
  | some (created_user, s') => (.ok created_user, s')
  | none => (.error (.httpException 500 "An error occurred while creating the user"), s)

/-- `UserService.update_user`: fetch by id (404 on `DoesNotExist`), assign
every field of the body, `save()`; an `IntegrityError` from the save is not
caught and escapes. -/
def update_user (s : DBState) (user_id : Nat) (user : User) :
    Except SvcError UserModel × DBState :=
  match usersGet s user_id with
  | none => (.error (.httpException 404 "User not found"), s)
  | some u_user =>
    if usersSaveOk s user_id user then
      let newRow : UserModel :=
        { u_user with name := user.name, email := user.email, password := user.password,
                      profile_photo := user.profile_photo, account_type := user.account_type,
                      role_id := user.role_id }
      (.ok newRow,
        { s with users := s.users.map (fun u => if u.id == user_id then newRow else u) })
    else (.error .integrityError, s)

/-- `UserService.delete_user`:
`UserModel.delete().where(UserModel.id == user_id).execute()` runs the
(cascading) `DELETE` and returns a row count, so `DoesNotExist` is never
raised; the service returns the success payload unconditionally. -/
def delete_user (s : DBState) (user_id : Nat) : Except SvcError String × DBState :=
  (.ok "User deleted", usersCascadeDelete s user_id)

end UserService

namespace GroupsService

/-- `GroupsService.get_group`: fetch by primary key, 404 on `DoesNotExist`. -/
def get_group (s : DBState) (group_id : Nat) : Except SvcError GroupsModel :=
  match groupsGet s group_id with
  | some group => .ok group
  | none => .error (.httpException 404 "Group not found")

/-- `GroupsService.create_group`: `GroupsModel.create(...)`; the table has
no constraint to violate, so the insert succeeds. -/
def create_group (s : DBState) (group : Groups) : Except SvcError GroupsModel × DBState :=
  let (created_group, s') := groupsInsert s group
  (.ok created_group, s')

/-- `GroupsService.update_group`: fetch by id (404 on `DoesNotExist`),
assign `name` and `description`, `save()`. -/
def update_group (s : DBState) (group_id : Nat) (group : Groups) :
    Except SvcError GroupsModel × DBState :=
  match groupsGet s group_id with
  | none => (.error (.httpException 404 "Group not found"), s)
  | some u_group =>
    let newRow : GroupsModel := { u_group with name := group.name, description := group.description }
    (.ok newRow,
      { s with groups := s.groups.map (fun g => if g.id == group_id then newRow else g) })

/-- `GroupsService.delete_group`:
`GroupsModel.delete().where(GroupsModel.id == group_id).execute()` runs the
(cascading) `DELETE` and returns a row count, so `DoesNotExist` is never
raised; the service returns the success payload unconditionally. -/
def delete_group (s : DBState) (group_id : Nat) : Except SvcError String × DBState :=
  (.ok "Group deleted", groupsCascadeDelete s group_id)

end GroupsService

namespace UserGroupsService

/-- `UserGroupsService.get_user_group`: fetch by the association's own
surrogate primary key (`UserGroupsModel.id == user_group_id`), 404 on
`DoesNotExist`. -/
def get_user_group (s : DBState) (user_group_id : Nat) : Except SvcError UserGroupsModel :=
  match userGroupsGet s user_group_id with
  | some user_group => .ok user_group
  | none => .error (.httpException 404 "User-group association not found")

/-- `UserGroupsService.create_user_group`: `UserGroupsModel.create(...)`;
`IntegrityError` is caught and re-raised as `HTTPException(500, ...)`. -/
def create_user_group (s : DBState) (user_group : UserGroups) :
    Except SvcError UserGroupsModel × DBState :=
  match userGroupsInsert s user_group with
  | some (created_user_group, s') => (.ok created_user_group, s')
  | none =>
    (.error (.httpException 500 "An error occurred while creating the user-group association"), s)

/-- `UserGroupsService.update_user_group`: fetch by surrogate id (404 on
`DoesNotExist`), assign `user_id` and `group_id`, `save()`; an
`IntegrityError` from the save is not caught and escapes. -/
def update_user_group (s : DBState) (user_group_id : Nat) (user_group : UserGroups) :
    Except SvcError UserGroupsModel × DBState :=
  match userGroupsGet s user_group_id with
  | none => (.error (.httpException 404 "User group not found"), s)
  | some u_group =>
    if userGroupsSaveOk s user_group then
      let newRow : UserGroupsModel :=
        { u_group with user_id := user_group.user_id, group_id := user_group.group_id }
      (.ok newRow,
        { s with user_groups :=
            s.user_groups.map (fun ug => if ug.id == user_group_id then newRow else ug) })
    else (.error .integrityError, s)

/-- `UserGroupsService.delete_user_group`:
`UserGroupsModel.delete().where(UserGroupsModel.id == user_group_id).execute()`
runs the `DELETE` and returns a row count, so `DoesNotExist` is never
raised; the service returns the success payload unconditionally. -/
def delete_user_group (s : DBState) (user_group_id : Nat) : Except SvcError String × DBState :=
  (.ok "User-group association deleted", userGroupsDelete s user_group_id)

end UserGroupsService

/-- Auto-increment soundness: every stored id is below its table's counter,
as MySQL maintains for auto-increment primary keys. -/
def WF (s : DBState) : Prop :=
  (∀ r ∈ s.roles, r.id < s.next_role_id) ∧
  (∀ u ∈ s.users, u.id < s.next_user_id) ∧
  (∀ g ∈ s.groups, g.id < s.next_group_id) ∧
  (∀ ug ∈ s.user_groups, ug.id < s.next_user_group_id)

instance : DecidablePred WF := fun s => by
  unfold WF; infer_instance

/-- Primary-key uniqueness: no two rows of a table share an id, as MySQL
guarantees for primary keys. -/
def UniqueIds (s : DBState) : Prop :=
  (s.roles.map RolesModel.id).Nodup ∧
  (s.users.map UserModel.id).Nodup ∧
  (s.groups.map GroupsModel.id).Nodup ∧
  (s.user_groups.map UserGroupsModel.id).Nodup

instance : DecidablePred UniqueIds := fun s => by
  unfold UniqueIds; infer_instance

/-- Referential integrity: every foreign key references an existing row. -/
def RefIntact (s : DBState) : Prop :=
  (∀ u ∈ s.users, ∃ r ∈ s.roles, r.id = u.role_id) ∧
  (∀ ug ∈ s.user_groups,
    (∃ u ∈ s.users, u.id = ug.user_id) ∧ (∃ g ∈ s.groups, g.id = ug.group_id))

instance : DecidablePred RefIntact := fun s => by
  unfold RefIntact; infer_instance

theorem find?_concat_of_none {α : Type} (p : α → Bool) (l : List α) (x : α)
    (hl : l.find? p = none) (hx : p x = true) :
    (l ++ [x]).find? p = some x := by
  induction l with
  | nil => simp [List.find?, hx]
  | cons a t ih =>
    cases ha : p a with
    | true => simp [List.find?, ha] at hl
    | false =>
      rw [List.find?_cons_of_neg _ (by simp [ha])] at hl
      simpa [List.find?, ha] using ih hl

theorem find?_key_of_mem_nodup {α : Type} (key : α → Nat) (l : List α) (x : α)
    (hmem : x ∈ l) (hnd : (l.map key).Nodup) :
    l.find? (fun a => key a == key x) = some x := by
  induction l with
  | nil => cases hmem
  | cons a t ih =>
    rcases List.mem_cons.mp hmem with h | h
    · subst h
      simp [List.find?]
    · rw [List.map_cons] at hnd
      obtain ⟨h1, h2⟩ := List.nodup_cons.mp hnd
      have hne : key a ≠ key x := by
        intro hcontra
        exact h1 (hcontra ▸ List.mem_map_of_mem key h)
      rw [List.find?_cons_of_neg _ (by simp [hne])]
      exact ih h h2

/-- C1: the claim states that for every entity, deleting an absent id fails
with NotFound.  The code instead runs `Model.delete().where(...).execute()`,
which returns a row count and never raises `DoesNotExist`, so all four
services return their success acknowledgment on an absent id — here
evaluated on the empty database, where id 1 is absent from every table. -/
theorem C1_delete_absent_returns_success :
    (UserService.delete_user emptyDB 1).1 = .ok "User deleted" ∧
    (RolesService.delete_role emptyDB 1).1 = .ok "Role deleted" ∧
    (GroupsService.delete_group emptyDB 1).1 = .ok "Group deleted" ∧
    (UserGroupsService.delete_user_group emptyDB 1).1 = .ok "User-group association deleted" :=
  ⟨rfl, rfl, rfl, rfl⟩

/-- C2: for every entity, when `create` succeeds and returns record `r`,
`r` carries the freshly generated auto-increment id and `get r.id` on the
resulting database returns a record equal to `r`. -/
theorem C2_create_get_roundtrip :
    (∀ s role r s', WF s → RolesService.create_role s role = (.ok r, s') →
      r.id = s.next_role_id ∧ RolesService.get_role s' r.id = .ok r) ∧
    (∀ s user r s', WF s → UserService.create_user s user = (.ok r, s') →
      r.id = s.next_user_id ∧ UserService.get_user s' r.id = .ok r) ∧
    (∀ s group r s', WF s → GroupsService.create_group s group = (.ok r, s') →
      r.id = s.next_group_id ∧ GroupsService.get_group s' r.id = .ok r) ∧
    (∀ s ug r s', WF s → UserGroupsService.create_user_group s ug = (.ok r, s') →
      r.id = s.next_user_group_id ∧ UserGroupsService.get_user_group s' r.id = .ok r) := by
  refine ⟨?_, ?_, ?_, ?_⟩
  · intro s role r s' hwf hc
    unfold RolesService.create_role rolesInsert at hc
    by_cases hdup : (s.roles.any (fun x => x.name == role.name)) = true
    · simp [hdup] at hc
    · simp only [Bool.not_eq_true] at hdup
      simp only [hdup, Bool.false_eq_true, if_false, Prod.mk.injEq, Except.ok.injEq] at hc
      obtain ⟨h1, h2⟩ := hc
      subst h1; subst h2
      refine ⟨rfl, ?_⟩
      unfold RolesService.get_role rolesGet
      rw [find?_concat_of_none]
      · exact List.find?_eq_none.mpr (fun x hx => by
          have := hwf.1 x hx
          simp only [beq_iff_eq]
          omega)
      · simp
  · intro s user r s' hwf hc
    unfold UserService.create_user usersInsert at hc
    by_cases hbad : (!(s.roles.any (fun x => x.id == user.role_id))
        || s.users.any (fun u => u.email == user.email)) = true
    · simp [hbad] at hc
    · simp only [Bool.not_eq_true] at hbad
      simp only [hbad, Bool.false_eq_true, if_false, Prod.mk.injEq, Except.ok.injEq] at hc
      obtain ⟨h1, h2⟩ := hc
      subst h1; subst h2
      refine ⟨rfl, ?_⟩
      unfold UserService.get_user usersGet
      rw [find?_concat_of_none]
      · exact List.find?_eq_none.mpr (fun x hx => by
          have := hwf.2.1 x hx
          simp only [beq_iff_eq]
          omega)
      · simp
  · intro s group r s' hwf hc
    unfold GroupsService.create_group groupsInsert at hc
    simp only [Prod.mk.injEq, Except.ok.injEq] at hc
    obtain ⟨h1, h2⟩ := hc
    subst h1; subst h2
    refine ⟨rfl, ?_⟩
    unfold GroupsService.get_group groupsGet
    rw [find?_concat_of_none]
    · exact List.find?_eq_none.mpr (fun x hx => by
        have := hwf.2.2.1 x hx
        simp only [beq_iff_eq]
        omega)
    · simp
  · intro s ug r s' hwf hc
    unfold UserGroupsService.create_user_group userGroupsInsert at hc
    by_cases hbad : (!(s.users.any (fun x => x.id == ug.user_id))
        || !(s.groups.any (fun g => g.id == ug.group_id))) = true
    · simp [hbad] at hc
    · simp only [Bool.not_eq_true] at hbad
      simp only [hbad, Bool.false_eq_true, if_false, Prod.mk.injEq, Except.ok.injEq] at hc
      obtain ⟨h1, h2⟩ := hc
      subst h1; subst h2
      refine ⟨rfl, ?_⟩
      unfold UserGroupsService.get_user_group userGroupsGet
      rw [find?_concat_of_none]
      · exact List.find?_eq_none.mpr (fun x hx => by
          have := hwf.2.2.2 x hx
          simp only [beq_iff_eq]
          omega)
      · simp

/-- Concrete database used by witnesses and counterexamples: one role, one
user (email `ana@mail.com`, role 1), one group, one association row
pairing user 1 with group 1. -/
def dbW : DBState :=
  { roles := [⟨1, "Admin", "administrator"⟩]
    users := [⟨1, "Ana", "ana@mail.com", "pw", "photo", "admin", 1⟩]
    groups := [⟨1, "G1", "group one"⟩]
    user_groups := [⟨1, 1, 1⟩]
    next_role_id := 2, next_user_id := 2, next_group_id := 2, next_user_group_id := 2 }

/-- State of `dbW` after creating role `Editor`. -/
def dbWRole : DBState :=
  { dbW with roles := [⟨1, "Admin", "administrator"⟩, ⟨2, "Editor", "edits"⟩]
             next_role_id := 3 }

/-- State of `dbW` after creating user `Ben`. -/
def dbWUser : DBState :=
  { dbW with users := [⟨1, "Ana", "ana@mail.com", "pw", "photo", "admin", 1⟩,
                        ⟨2, "Ben", "ben@mail.com", "pw", "ph", "std", 1⟩]
             next_user_id := 3 }

/-- State of `dbW` after creating group `G2`. -/
def dbWGroup : DBState :=
  { dbW with groups := [⟨1, "G1", "group one"⟩, ⟨2, "G2", "second"⟩]
             next_group_id := 3 }

/-- State of `dbW` after creating a second association of user 1 with
group 1. -/
def dbWUG : DBState :=
  { dbW with user_groups := [⟨1, 1, 1⟩, ⟨2, 1, 1⟩]
             next_user_group_id := 3 }

/-- Witness for C2 at concrete inputs: each create on `dbW` succeeds, the
created record carries the generated id 2, and the subsequent get by that
id returns the created record. -/
theorem C2_create_get_roundtrip_witness :
    ((⟨2, "Editor", "edits"⟩ : RolesModel).id = dbW.next_role_id ∧
      RolesService.get_role dbWRole 2 = .ok ⟨2, "Editor", "edits"⟩) ∧
    ((⟨2, "Ben", "ben@mail.com", "pw", "ph", "std", 1⟩ : UserModel).id = dbW.next_user_id ∧
      UserService.get_user dbWUser 2 =
        .ok ⟨2, "Ben", "ben@mail.com", "pw", "ph", "std", 1⟩) ∧
    ((⟨2, "G2", "second"⟩ : GroupsModel).id = dbW.next_group_id ∧
      GroupsService.get_group dbWGroup 2 = .ok ⟨2, "G2", "second"⟩) ∧
    ((⟨2, 1, 1⟩ : UserGroupsModel).id = dbW.next_user_group_id ∧
      UserGroupsService.get_user_group dbWUG 2 = .ok ⟨2, 1, 1⟩) :=
  ⟨C2_create_get_roundtrip.1 dbW ⟨"Editor", "edits"⟩ ⟨2, "Editor", "edits"⟩ dbWRole
      (by decide) (by decide),
   C2_create_get_roundtrip.2.1 dbW ⟨"Ben", "ben@mail.com", "pw", "ph", "std", 1⟩
      ⟨2, "Ben", "ben@mail.com", "pw", "ph", "std", 1⟩ dbWUser (by decide) (by decide),
   C2_create_get_roundtrip.2.2.1 dbW ⟨"G2", "second"⟩ ⟨2, "G2", "second"⟩ dbWGroup
      (by decide) (by decide),
   C2_create_get_roundtrip.2.2.2 dbW ⟨1, 1⟩ ⟨2, 1, 1⟩ dbWUG (by decide) (by decide)⟩

/-- C3: the claim states that a duplicate write to a unique-constrained
column fails with a UniquenessViolation distinct from a generic integrity
error.  On `dbW` a duplicate role name and a duplicate user email are
rejected, but with `HTTPException(500, ...)` — literally the same error
value the same endpoint returns for a foreign-key violation (third
conjunct), so no distinct uniqueness error exists. -/
theorem C3_counterexample :
    RolesService.create_role dbW ⟨"Admin", "dup"⟩ =
      (.error (.httpException 500 "An error occurred while creating the role"), dbW) ∧
    UserService.create_user dbW ⟨"Eva", "ana@mail.com", "pw", "ph", "std", 1⟩ =
      (.error (.httpException 500 "An error occurred while creating the user"), dbW) ∧
    UserService.create_user dbW ⟨"Eva", "eva@mail.com", "pw", "ph", "std", 999⟩ =
      (.error (.httpException 500 "An error occurred while creating the user"), dbW) := by
  decide

/-- C3 amended: a duplicate write to a unique-constrained column
(`Role.name`, `User.email`) is rejected and no row is inserted, but the
error surfaced is the create endpoint's generic
`HTTPException(500, "An error occurred while creating the ...")` — the
translation of any `IntegrityError` — not a uniqueness-specific error. -/
theorem C3_amended_generic_error :
    (∀ s role, (∃ r ∈ s.roles, r.name = role.name) →
      RolesService.create_role s role =
        (.error (.httpException 500 "An error occurred while creating the role"), s)) ∧
    (∀ s user, (∃ u ∈ s.users, u.email = user.email) →
      UserService.create_user s user =
        (.error (.httpException 500 "An error occurred while creating the user"), s)) := by
  constructor
  · intro s role h
    obtain ⟨r, hr, hname⟩ := h
    have hdup : (s.roles.any (fun x => x.name == role.name)) = true :=
      List.any_eq_true.mpr ⟨r, hr, by simp [hname]⟩
    unfold RolesService.create_role rolesInsert
    simp [hdup]
  · intro s user h
    obtain ⟨u, hu, hemail⟩ := h
    have hdup : (s.users.any (fun x => x.email == user.email)) = true :=
      List.any_eq_true.mpr ⟨u, hu, by simp [hemail]⟩
    unfold UserService.create_user usersInsert
    simp [hdup]

/-- Witness for the amended C3 on `dbW`: duplicate role name and duplicate
user email both produce the generic 500 create error. -/
theorem C3_amended_generic_error_witness :
    RolesService.create_role dbW ⟨"Admin", "again"⟩ =
      (.error (.httpException 500 "An error occurred while creating the role"), dbW) ∧
    UserService.create_user dbW ⟨"Eve", "ana@mail.com", "pw", "ph", "std", 1⟩ =
      (.error (.httpException 500 "An error occurred while creating the user"), dbW) :=
  ⟨C3_amended_generic_error.1 dbW ⟨"Admin", "again"⟩ (by decide),
   C3_amended_generic_error.2 dbW ⟨"Eve", "ana@mail.com", "pw", "ph", "std", 1⟩ (by decide)⟩

/-- C4: the claim states that a create whose foreign key references no
existing parent fails with a ReferentialIntegrityViolation.  On `dbW` a
user create with dangling `role_id = 999` and an association create with
dangling `user_id = 7` do fail and insert no row (the state is returned
unchanged), but the error is `HTTPException(500, ...)` — the same value the
same endpoint returns for a duplicate email (third conjunct) — so no
distinct referential-integrity error exists. -/
theorem C4_counterexample :
    UserService.create_user dbW ⟨"Zoe", "zoe@mail.com", "pw", "ph", "std", 999⟩ =
      (.error (.httpException 500 "An error occurred while creating the user"), dbW) ∧
    UserGroupsService.create_user_group dbW ⟨7, 1⟩ =
      (.error
        (.httpException 500 "An error occurred while creating the user-group association"),
        dbW) ∧
    UserService.create_user dbW ⟨"Zoe", "ana@mail.com", "pw", "ph", "std", 1⟩ =
      (.error (.httpException 500 "An error occurred while creating the user"), dbW) := by
  decide

/-- C4 amended: a create whose foreign key references no existing parent
row is rejected and no row is inserted (the state comes back unchanged),
but the error surfaced is the create endpoint's generic
`HTTPException(500, ...)` translation of `IntegrityError`, not a
referential-integrity-specific error. -/
theorem C4_amended_fk_create_fails :
    (∀ s user, (∀ r ∈ s.roles, r.id ≠ user.role_id) →
      UserService.create_user s user =
        (.error (.httpException 500 "An error occurred while creating the user"), s)) ∧
    (∀ s ug, (∀ u ∈ s.users, u.id ≠ ug.user_id) →
      UserGroupsService.create_user_group s ug =
        (.error
          (.httpException 500 "An error occurred while creating the user-group association"),
          s)) ∧
    (∀ s ug, (∀ g ∈ s.groups, g.id ≠ ug.group_id) →
      UserGroupsService.create_user_group s ug =
        (.error
          (.httpException 500 "An error occurred while creating the user-group association"),
          s)) := by
  refine ⟨?_, ?_, ?_⟩
  · intro s user h
    have hfk : (s.roles.any (fun x => x.id == user.role_id)) = false := by
      simp only [List.any_eq_false, beq_iff_eq]
      exact h
    unfold UserService.create_user usersInsert
    simp [hfk]
  · intro s ug h
    have hfk : (s.users.any (fun x => x.id == ug.user_id)) = false := by
      simp only [List.any_eq_false, beq_iff_eq]
      exact h
    unfold UserGroupsService.create_user_group userGroupsInsert
    simp [hfk]
  · intro s ug h
    have hfk : (s.groups.any (fun x => x.id == ug.group_id)) = false := by
      simp only [List.any_eq_false, beq_iff_eq]
      exact h
    unfold UserGroupsService.create_user_group userGroupsInsert
    simp [hfk]

/-- Witness for the amended C4 on `dbW`: dangling `role_id`, `user_id` and
`group_id` creates all come back with the generic 500 create error and the
unchanged state. -/
theorem C4_amended_fk_create_fails_witness :
    UserService.create_user dbW ⟨"Kim", "kim@mail.com", "pw", "ph", "std", 42⟩ =
      (.error (.httpException 500 "An error occurred while creating the user"), dbW) ∧
    UserGroupsService.create_user_group dbW ⟨9, 1⟩ =
      (.error
        (.httpException 500 "An error occurred while creating the user-group association"),
        dbW) ∧
    UserGroupsService.create_user_group dbW ⟨1, 9⟩ =
      (.error
        (.httpException 500 "An error occurred while creating the user-group association"),
        dbW) :=
  ⟨C4_amended_fk_create_fails.1 dbW ⟨"Kim", "kim@mail.com", "pw", "ph", "std", 42⟩ (by decide),
   C4_amended_fk_create_fails.2.1 dbW ⟨9, 1⟩ (by decide),
   C4_amended_fk_create_fails.2.2 dbW ⟨1, 9⟩ (by decide)⟩

/-- C5: deleting a Role, User, or Group silently succeeds and removes
dependents along exactly the declared cascade edges
(Role→User, User→UserGroup, Group→UserGroup, chaining Role→User→UserGroup),
so that from a referentially intact state, after the delete no surviving
row references the deleted parent and referential integrity still holds. -/
theorem C5_cascade_delete :
    ∀ s i, RefIntact s →
      ((RolesService.delete_role s i).1 = .ok "Role deleted" ∧
       (∀ r ∈ ((RolesService.delete_role s i).2).roles, r.id ≠ i) ∧
       (∀ u ∈ ((RolesService.delete_role s i).2).users, u.role_id ≠ i) ∧
       RefIntact (RolesService.delete_role s i).2) ∧
      ((UserService.delete_user s i).1 = .ok "User deleted" ∧
       (∀ u ∈ ((UserService.delete_user s i).2).users, u.id ≠ i) ∧
       (∀ ug ∈ ((UserService.delete_user s i).2).user_groups, ug.user_id ≠ i) ∧
       RefIntact (UserService.delete_user s i).2) ∧
      ((GroupsService.delete_group s i).1 = .ok "Group deleted" ∧
       (∀ g ∈ ((GroupsService.delete_group s i).2).groups, g.id ≠ i) ∧
       (∀ ug ∈ ((GroupsService.delete_group s i).2).user_groups, ug.group_id ≠ i) ∧
       RefIntact (GroupsService.delete_group s i).2) := by
  intro s i href
  obtain ⟨hU, hUG⟩ := href
  refine ⟨⟨rfl, ?_, ?_, ?_, ?_⟩, ⟨rfl, ?_, ?_, ?_, ?_⟩, ⟨rfl, ?_, ?_, ?_, ?_⟩⟩
  · intro r hr
    simp only [RolesService.delete_role, rolesCascadeDelete, List.mem_filter,
      bne_iff_ne, ne_eq] at hr
    exact hr.2
  · intro u hu
    simp only [RolesService.delete_role, rolesCascadeDelete, List.mem_filter,
      bne_iff_ne, ne_eq] at hu
    exact hu.2
  · intro u hu
    simp only [RolesService.delete_role, rolesCascadeDelete, List.mem_filter,
      bne_iff_ne, ne_eq] at hu ⊢
    obtain ⟨hmem, hrole⟩ := hu
    obtain ⟨r, hrmem, hrid⟩ := hU u hmem
    exact ⟨r, ⟨hrmem, by omega⟩, hrid⟩
  · intro ug hug
    simp only [RolesService.delete_role, rolesCascadeDelete, List.mem_filter,
      Bool.not_eq_true', List.any_eq_false, beq_iff_eq, beq_eq_false_iff_ne, ne_eq] at hug
    obtain ⟨hmem, hdead⟩ := hug
    obtain ⟨⟨u, humem, huid⟩, ⟨g, hgmem, hgid⟩⟩ := hUG ug hmem
    constructor
    · refine ⟨u, ?_, huid⟩
      simp only [RolesService.delete_role, rolesCascadeDelete, List.mem_filter,
        bne_iff_ne, ne_eq]
      refine ⟨humem, ?_⟩
      intro hcontra
      exact (hdead u ⟨humem, hcontra⟩) huid
    · exact ⟨g, hgmem, hgid⟩
  · intro u hu
    simp only [UserService.delete_user, usersCascadeDelete, List.mem_filter,
      bne_iff_ne, ne_eq] at hu
    exact hu.2
  · intro ug hug
    simp only [UserService.delete_user, usersCascadeDelete, List.mem_filter,
      bne_iff_ne, ne_eq] at hug
    exact hug.2
  · intro u hu
    simp only [UserService.delete_user, usersCascadeDelete, List.mem_filter,
      bne_iff_ne, ne_eq] at hu
    exact hU u hu.1
  · intro ug hug
    simp only [UserService.delete_user, usersCascadeDelete, List.mem_filter,
      bne_iff_ne, ne_eq] at hug ⊢
    obtain ⟨hmem, hne⟩ := hug
    obtain ⟨⟨u, humem, huid⟩, ⟨g, hgmem, hgid⟩⟩ := hUG ug hmem
    exact ⟨⟨u, ⟨humem, by omega⟩, huid⟩, ⟨g, hgmem, hgid⟩⟩
  · intro g hg
    simp only [GroupsService.delete_group, groupsCascadeDelete, List.mem_filter,
      bne_iff_ne, ne_eq] at hg
    exact hg.2
  · intro ug hug
    simp only [GroupsService.delete_group, groupsCascadeDelete, List.mem_filter,
      bne_iff_ne, ne_eq] at hug
    exact hug.2
  · intro u hu
    exact hU u hu
  · intro ug hug
    simp only [GroupsService.delete_group, groupsCascadeDelete, List.mem_filter,
      bne_iff_ne, ne_eq] at hug ⊢
    obtain ⟨hmem, hne⟩ := hug
    obtain ⟨⟨u, humem, huid⟩, ⟨g, hgmem, hgid⟩⟩ := hUG ug hmem
    exact ⟨⟨u, humem, huid⟩, ⟨g, ⟨hgmem, by omega⟩, hgid⟩⟩

/-- Witness for C5 on `dbW` (role 1 owns user 1, who is in group 1): after
each parent delete no surviving row references the deleted parent and
referential integrity is preserved. -/
theorem C5_cascade_delete_witness :
    (∀ u ∈ ((RolesService.delete_role dbW 1).2).users, u.role_id ≠ 1) ∧
    RefIntact (RolesService.delete_role dbW 1).2 ∧
    (∀ ug ∈ ((UserService.delete_user dbW 1).2).user_groups, ug.user_id ≠ 1) ∧
    (∀ ug ∈ ((GroupsService.delete_group dbW 1).2).user_groups, ug.group_id ≠ 1) :=
  ⟨((C5_cascade_delete dbW 1 (by decide)).1).2.2.1,
   ((C5_cascade_delete dbW 1 (by decide)).1).2.2.2,
   ((C5_cascade_delete dbW 1 (by decide)).2.1).2.2.1,
   ((C5_cascade_delete dbW 1 (by decide)).2.2).2.2.1⟩

/-- State of `dbWUG` after creating a third association of user 1 with
group 1. -/
def dbWUG3 : DBState :=
  { dbW with user_groups := [⟨1, 1, 1⟩, ⟨2, 1, 1⟩, ⟨3, 1, 1⟩]
             next_user_group_id := 4 }

/-- C6: the claim states that a second `create` with the same
`(user_id, group_id)` pair is rejected.  Neither schema variant declares
uniqueness on the pair, so on `dbW` — where the pair (1,1) already exists
as row 1 — two further creates of the same pair both succeed, and the table
ends up holding three rows with the pair (1,1). -/
theorem C6_counterexample :
    UserGroupsService.create_user_group dbW ⟨1, 1⟩ = (.ok ⟨2, 1, 1⟩, dbWUG) ∧
    UserGroupsService.create_user_group dbWUG ⟨1, 1⟩ = (.ok ⟨3, 1, 1⟩, dbWUG3) ∧
    (dbWUG3.user_groups.filter (fun ug => ug.user_id == 1 && ug.group_id == 1)).length = 3 := by
  decide

/-- C6 amended: as long as both foreign keys resolve, `create` on
UserGroup always succeeds and appends a row under a fresh surrogate id,
even when the same `(user_id, group_id)` pair is already present — the
association table may hold duplicate pairs. -/
theorem C6_amended_duplicate_pair_inserts :
    ∀ s ug, (∃ u ∈ s.users, u.id = ug.user_id) → (∃ g ∈ s.groups, g.id = ug.group_id) →
      UserGroupsService.create_user_group s ug =
        (.ok ⟨s.next_user_group_id, ug.user_id, ug.group_id⟩,
          { s with
              user_groups := s.user_groups ++ [⟨s.next_user_group_id, ug.user_id, ug.group_id⟩]
              next_user_group_id := s.next_user_group_id + 1 }) := by
  intro s ug hu hg
  obtain ⟨u, humem, huid⟩ := hu
  obtain ⟨g, hgmem, hgid⟩ := hg
  have h1 : (s.users.any (fun x => x.id == ug.user_id)) = true :=
    List.any_eq_true.mpr ⟨u, humem, by simp [huid]⟩
  have h2 : (s.groups.any (fun x => x.id == ug.group_id)) = true :=
    List.any_eq_true.mpr ⟨g, hgmem, by simp [hgid]⟩
  unfold UserGroupsService.create_user_group userGroupsInsert
  simp [h1, h2]

/-- Witness for the amended C6 on `dbW`: the pair (1,1) already exists as
association row 1, yet creating it again succeeds and appends row 2. -/
theorem C6_amended_duplicate_pair_inserts_witness :
    UserGroupsService.create_user_group dbW ⟨1, 1⟩ = (.ok ⟨2, 1, 1⟩, dbWUG) :=
  C6_amended_duplicate_pair_inserts dbW ⟨1, 1⟩ (by decide) (by decide)

/-- C7: for every entity, `get(id)` returns the stored row whose primary
key equals `id` when one exists (primary keys being unique), and fails
with the 404 NotFound `HTTPException` when no row carries that id. -/
theorem C7_get_semantics :
    (∀ s i, ((∀ r ∈ s.roles, r.id ≠ i) →
        RolesService.get_role s i = .error (.httpException 404 "Role not found")) ∧
      (∀ r ∈ s.roles, UniqueIds s → r.id = i → RolesService.get_role s i = .ok r)) ∧
    (∀ s i, ((∀ u ∈ s.users, u.id ≠ i) →
        UserService.get_user s i = .error (.httpException 404 "User not found")) ∧
      (∀ u ∈ s.users, UniqueIds s → u.id = i → UserService.get_user s i = .ok u)) ∧
    (∀ s i, ((∀ g ∈ s.groups, g.id ≠ i) →
        GroupsService.get_group s i = .error (.httpException 404 "Group not found")) ∧
      (∀ g ∈ s.groups, UniqueIds s → g.id = i → GroupsService.get_group s i = .ok g)) ∧
    (∀ s i, ((∀ ug ∈ s.user_groups, ug.id ≠ i) →
        UserGroupsService.get_user_group s i =
          .error (.httpException 404 "User-group association not found")) ∧
      (∀ ug ∈ s.user_groups, UniqueIds s → ug.id = i →
        UserGroupsService.get_user_group s i = .ok ug)) := by
  refine ⟨fun s i => ⟨?_, ?_⟩, fun s i => ⟨?_, ?_⟩, fun s i => ⟨?_, ?_⟩, fun s i => ⟨?_, ?_⟩⟩
  · intro habs
    unfold RolesService.get_role rolesGet
    rw [List.find?_eq_none.mpr (fun x hx => by simpa using habs x hx)]
  · intro r hr hnd hid
    subst hid
    unfold RolesService.get_role rolesGet
    rw [find?_key_of_mem_nodup RolesModel.id s.roles r hr hnd.1]
  · intro habs
    unfold UserService.get_user usersGet
    rw [List.find?_eq_none.mpr (fun x hx => by simpa using habs x hx)]
  · intro u hu hnd hid
    subst hid
    unfold UserService.get_user usersGet
    rw [find?_key_of_mem_nodup UserModel.id s.users u hu hnd.2.1]
  · intro habs
    unfold GroupsService.get_group groupsGet
    rw [List.find?_eq_none.mpr (fun x hx => by simpa using habs x hx)]
  · intro g hg hnd hid
    subst hid
    unfold GroupsService.get_group groupsGet
    rw [find?_key_of_mem_nodup GroupsModel.id s.groups g hg hnd.2.2.1]
  · intro habs
    unfold UserGroupsService.get_user_group userGroupsGet
    rw [List.find?_eq_none.mpr (fun x hx => by simpa using habs x hx)]
  · intro ug hug hnd hid
    subst hid
    unfold UserGroupsService.get_user_group userGroupsGet
    rw [find?_key_of_mem_nodup UserGroupsModel.id s.user_groups ug hug hnd.2.2.2]

/-- Witness for C7 on `dbW`: present ids are returned, absent id 5 yields
the 404 NotFound error, for all four entities. -/
theorem C7_get_semantics_witness :
    RolesService.get_role dbW 1 = .ok ⟨1, "Admin", "administrator"⟩ ∧
    RolesService.get_role dbW 5 = .error (.httpException 404 "Role not found") ∧
    UserService.get_user dbW 1 = .ok ⟨1, "Ana", "ana@mail.com", "pw", "photo", "admin", 1⟩ ∧
    UserService.get_user dbW 5 = .error (.httpException 404 "User not found") ∧
    GroupsService.get_group dbW 1 = .ok ⟨1, "G1", "group one"⟩ ∧
    GroupsService.get_group dbW 5 = .error (.httpException 404 "Group not found") ∧
    UserGroupsService.get_user_group dbW 1 = .ok ⟨1, 1, 1⟩ ∧
    UserGroupsService.get_user_group dbW 5 =
      .error (.httpException 404 "User-group association not found") :=
  ⟨(C7_get_semantics.1 dbW 1).2 ⟨1, "Admin", "administrator"⟩ (by decide) (by decide) rfl,
   (C7_get_semantics.1 dbW 5).1 (by decide),
   (C7_get_semantics.2.1 dbW 1).2 ⟨1, "Ana", "ana@mail.com", "pw", "photo", "admin", 1⟩
     (by decide) (by decide) rfl,
   (C7_get_semantics.2.1 dbW 5).1 (by decide),
   (C7_get_semantics.2.2.1 dbW 1).2 ⟨1, "G1", "group one"⟩ (by decide) (by decide) rfl,
   (C7_get_semantics.2.2.1 dbW 5).1 (by decide),
   (C7_get_semantics.2.2.2 dbW 1).2 ⟨1, 1, 1⟩ (by decide) (by decide) rfl,
   (C7_get_semantics.2.2.2 dbW 5).1 (by decide)⟩

/-- C8: the claim states that whenever a row with the given id exists,
`update` overwrites every mutable field and returns the updated row.  On
`dbW` user 1 exists, yet updating it with a dangling `role_id = 999` makes
the `save()` hit the foreign-key constraint: the `IntegrityError` is not
caught by `update_user` (which only catches `DoesNotExist`), so the call
neither returns 404 nor overwrites — it escapes with the raw integrity
error and the row keeps its old values.  The same happens to an
association update with a dangling `user_id`. -/
theorem C8_counterexample :
    (dbW.users.any (fun u => u.id == 1)) = true ∧
    UserService.update_user dbW 1 ⟨"Ana", "ana@mail.com", "pw", "photo", "admin", 999⟩ =
      (.error .integrityError, dbW) ∧
    UserGroupsService.update_user_group dbW 1 ⟨7, 1⟩ = (.error .integrityError, dbW) := by
  decide

/-- C8 amended: for every entity, `update(id, fields)` fails with the 404
NotFound error when no row carries id; when the row exists and the new
field values satisfy the schema constraints (unique `Role.name`, unique
`User.email` plus existing role, existing user and group for an
association), every mutable field of the row is overwritten from `fields`
— nothing but the primary key survives from the old row — and the updated
row is returned; constraint-violating field values instead make the
uncaught `IntegrityError` escape. -/
theorem C8_amended_update_semantics :
    (∀ s i role, ((∀ r ∈ s.roles, r.id ≠ i) →
        RolesService.update_role s i role = (.error (.httpException 404 "Role not found"), s)) ∧
      (∀ r ∈ s.roles, UniqueIds s → r.id = i → rolesSaveOk s i role = true →
        RolesService.update_role s i role =
          (.ok ⟨i, role.name, role.description⟩,
            { s with roles := (s.roles.map
                (fun x => if x.id == i then ⟨i, role.name, role.description⟩ else x)) }))) ∧
    (∀ s i user, ((∀ u ∈ s.users, u.id ≠ i) →
        UserService.update_user s i user = (.error (.httpException 404 "User not found"), s)) ∧
      (∀ u ∈ s.users, UniqueIds s → u.id = i → usersSaveOk s i user = true →
        UserService.update_user s i user =
          (.ok ⟨i, user.name, user.email, user.password,
              user.profile_photo, user.account_type, user.role_id⟩,
            { s with users := (s.users.map
                (fun x => if x.id == i then
                  ⟨i, user.name, user.email, user.password,
                    user.profile_photo, user.account_type, user.role_id⟩ else x)) }))) ∧
    (∀ s i group, ((∀ g ∈ s.groups, g.id ≠ i) →
        GroupsService.update_group s i group =
          (.error (.httpException 404 "Group not found"), s)) ∧
      (∀ g ∈ s.groups, UniqueIds s → g.id = i →
        GroupsService.update_group s i group =
          (.ok ⟨i, group.name, group.description⟩,
            { s with groups := (s.groups.map
                (fun x => if x.id == i then ⟨i, group.name, group.description⟩ else x)) }))) ∧
    (∀ s i user_group, ((∀ ug ∈ s.user_groups, ug.id ≠ i) →
        UserGroupsService.update_user_group s i user_group =
          (.error (.httpException 404 "User group not found"), s)) ∧
      (∀ ug ∈ s.user_groups, UniqueIds s → ug.id = i →
        userGroupsSaveOk s user_group = true →
        UserGroupsService.update_user_group s i user_group =
          (.ok ⟨i, user_group.user_id, user_group.group_id⟩,
            { s with user_groups := (s.user_groups.map
                (fun x => if x.id == i then
                  ⟨i, user_group.user_id, user_group.group_id⟩ else x)) }))) := by
  refine ⟨fun s i role => ⟨?_, ?_⟩, fun s i user => ⟨?_, ?_⟩,
    fun s i group => ⟨?_, ?_⟩, fun s i user_group => ⟨?_, ?_⟩⟩
  · intro habs
    unfold RolesService.update_role rolesGet
    rw [List.find?_eq_none.mpr (fun x hx => by simpa using habs x hx)]
  · intro r hr hnd hid hsave
    subst hid
    unfold RolesService.update_role rolesGet
    rw [find?_key_of_mem_nodup RolesModel.id s.roles r hr hnd.1]
    simp [hsave]
  · intro habs
    unfold UserService.update_user usersGet
    rw [List.find?_eq_none.mpr (fun x hx => by simpa using habs x hx)]
  · intro u hu hnd hid hsave
    subst hid
    unfold UserService.update_user usersGet
    rw [find?_key_of_mem_nodup UserModel.id s.users u hu hnd.2.1]
    simp [hsave]
  · intro habs
    unfold GroupsService.update_group groupsGet
    rw [List.find?_eq_none.mpr (fun x hx => by simpa using habs x hx)]
  · intro g hg hnd hid
    subst hid
    unfold GroupsService.update_group groupsGet
    rw [find?_key_of_mem_nodup GroupsModel.id s.groups g hg hnd.2.2.1]
  · intro habs
    unfold UserGroupsService.update_user_group userGroupsGet
    rw [List.find?_eq_none.mpr (fun x hx => by simpa using habs x hx)]
  · intro ug hug hnd hid hsave
    subst hid
    unfold UserGroupsService.update_user_group userGroupsGet
    rw [find?_key_of_mem_nodup UserGroupsModel.id s.user_groups ug hug hnd.2.2.2]
    simp [hsave]

/-- Witness for the amended C8 on `dbW`: an absent id yields 404, and on
existing rows every mutable field is overwritten and the updated row
returned, for all four entities. -/
theorem C8_amended_update_semantics_witness :
    RolesService.update_role dbW 5 ⟨"X", "y"⟩ =
      (.error (.httpException 404 "Role not found"), dbW) ∧
    RolesService.update_role dbW 1 ⟨"Chief", "c"⟩ =
      (.ok ⟨1, "Chief", "c"⟩, { dbW with roles := [⟨1, "Chief", "c"⟩] }) ∧
    UserService.update_user dbW 1 ⟨"Amy", "amy@mail.com", "q", "ph2", "std", 1⟩ =
      (.ok ⟨1, "Amy", "amy@mail.com", "q", "ph2", "std", 1⟩,
        { dbW with users := [⟨1, "Amy", "amy@mail.com", "q", "ph2", "std", 1⟩] }) ∧
    GroupsService.update_group dbW 1 ⟨"H", "h"⟩ =
      (.ok ⟨1, "H", "h"⟩, { dbW with groups := [⟨1, "H", "h"⟩] }) ∧
    UserGroupsService.update_user_group dbW 1 ⟨1, 1⟩ =
      (.ok ⟨1, 1, 1⟩, { dbW with user_groups := [⟨1, 1, 1⟩] }) :=
  ⟨(C8_amended_update_semantics.1 dbW 5 ⟨"X", "y"⟩).1 (by decide),
   (C8_amended_update_semantics.1 dbW 1 ⟨"Chief", "c"⟩).2 ⟨1, "Admin", "administrator"⟩
     (by decide) (by decide) rfl (by decide),
   (C8_amended_update_semantics.2.1 dbW 1 ⟨"Amy", "amy@mail.com", "q", "ph2", "std", 1⟩).2
     ⟨1, "Ana", "ana@mail.com", "pw", "photo", "admin", 1⟩ (by decide) (by decide) rfl
     (by decide),
   (C8_amended_update_semantics.2.2.1 dbW 1 ⟨"H", "h"⟩).2 ⟨1, "G1", "group one"⟩
     (by decide) (by decide) rfl,
   (C8_amended_update_semantics.2.2.2 dbW 1 ⟨1, 1⟩).2 ⟨1, 1, 1⟩
     (by decide) (by decide) rfl (by decide)⟩

/-- C9: each delete is frame-bounded: it removes the rows whose primary
key equals the target id plus exactly the rows reachable over the declared
cascade edges; rows of the same table with other ids survive unchanged,
unrelated tables are untouched, and afterwards no row with the target
primary key remains in the targeted table. -/
theorem C9_delete_frame :
    ∀ s i,
      (((RolesService.delete_role s i).2).groups = s.groups ∧
       (∀ r, r ∈ ((RolesService.delete_role s i).2).roles ↔ r ∈ s.roles ∧ r.id ≠ i) ∧
       (∀ u, u ∈ ((RolesService.delete_role s i).2).users ↔ u ∈ s.users ∧ u.role_id ≠ i) ∧
       (∀ ug, ug ∈ ((RolesService.delete_role s i).2).user_groups ↔
         ug ∈ s.user_groups ∧ ∀ u ∈ s.users, u.role_id = i → u.id ≠ ug.user_id)) ∧
      (((UserService.delete_user s i).2).roles = s.roles ∧
       ((UserService.delete_user s i).2).groups = s.groups ∧
       (∀ u, u ∈ ((UserService.delete_user s i).2).users ↔ u ∈ s.users ∧ u.id ≠ i) ∧
       (∀ ug, ug ∈ ((UserService.delete_user s i).2).user_groups ↔
         ug ∈ s.user_groups ∧ ug.user_id ≠ i)) ∧
      (((GroupsService.delete_group s i).2).roles = s.roles ∧
       ((GroupsService.delete_group s i).2).users = s.users ∧
       (∀ g, g ∈ ((GroupsService.delete_group s i).2).groups ↔ g ∈ s.groups ∧ g.id ≠ i) ∧
       (∀ ug, ug ∈ ((GroupsService.delete_group s i).2).user_groups ↔
         ug ∈ s.user_groups ∧ ug.group_id ≠ i)) ∧
      (((UserGroupsService.delete_user_group s i).2).roles = s.roles ∧
       ((UserGroupsService.delete_user_group s i).2).users = s.users ∧
       ((UserGroupsService.delete_user_group s i).2).groups = s.groups ∧
       (∀ ug, ug ∈ ((UserGroupsService.delete_user_group s i).2).user_groups ↔
         ug ∈ s.user_groups ∧ ug.id ≠ i)) := by
  intro s i
  refine ⟨⟨rfl, ?_, ?_, ?_⟩, ⟨rfl, rfl, ?_, ?_⟩, ⟨rfl, rfl, ?_, ?_⟩, ⟨rfl, rfl, rfl, ?_⟩⟩
  · intro r
    simp [RolesService.delete_role, rolesCascadeDelete, List.mem_filter, bne_iff_ne]
  · intro u
    simp [RolesService.delete_role, rolesCascadeDelete, List.mem_filter, bne_iff_ne]
  · intro ug
    simp [RolesService.delete_role, rolesCascadeDelete, List.mem_filter, bne_iff_ne,
      List.any_eq_false, Bool.not_eq_true']
  · intro u
    simp [UserService.delete_user, usersCascadeDelete, List.mem_filter, bne_iff_ne]
  · intro ug
    simp [UserService.delete_user, usersCascadeDelete, List.mem_filter, bne_iff_ne]
  · intro g
    simp [GroupsService.delete_group, groupsCascadeDelete, List.mem_filter, bne_iff_ne]
  · intro ug
    simp [GroupsService.delete_group, groupsCascadeDelete, List.mem_filter, bne_iff_ne]
  · intro ug
    simp [UserGroupsService.delete_user_group, userGroupsDelete, List.mem_filter, bne_iff_ne]

/-- C10: every UserGroup single-record operation is keyed by the
association's own surrogate id column: `get i` returns a stored row whose
`id` equals `i`, a successful `update i` produces the row with `id = i`
overwritten from the body and touches no row with a different id, and
`delete i` removes rows with `id = i` only — rows carrying the same
`(user_id, group_id)` pair under a different surrogate id survive. -/
theorem C10_user_group_ops_by_surrogate_id :
    (∀ s i ug, UserGroupsService.get_user_group s i = .ok ug →
      ug.id = i ∧ ug ∈ s.user_groups) ∧
    (∀ s i input ug s', UserGroupsService.update_user_group s i input = (.ok ug, s') →
      ug.id = i ∧ ug.user_id = input.user_id ∧ ug.group_id = input.group_id ∧
      (∀ x ∈ s.user_groups, x.id ≠ i → x ∈ s'.user_groups)) ∧
    (∀ s i, (∀ x ∈ ((UserGroupsService.delete_user_group s i).2).user_groups, x.id ≠ i) ∧
      (∀ x ∈ s.user_groups, x.id ≠ i →
        x ∈ ((UserGroupsService.delete_user_group s i).2).user_groups)) := by
  refine ⟨?_, ?_, ?_⟩
  · intro s i ug h
    unfold UserGroupsService.get_user_group userGroupsGet at h
    cases hfind : s.user_groups.find? (fun x => x.id == i) with
    | none => rw [hfind] at h; simp at h
    | some x =>
      rw [hfind] at h
      have hx : x = ug := by simpa using h
      subst hx
      refine ⟨by simpa using List.find?_some hfind, List.mem_of_find?_eq_some hfind⟩
  · intro s i input ug s' h
    unfold UserGroupsService.update_user_group userGroupsGet at h
    cases hfind : s.user_groups.find? (fun x => x.id == i) with
    | none => rw [hfind] at h; simp at h
    | some x =>
      rw [hfind] at h
      by_cases hsv : userGroupsSaveOk s input = true
      · simp only [hsv, if_true, Prod.mk.injEq, Except.ok.injEq] at h
        obtain ⟨h1, h2⟩ := h
        have hid : x.id = i := by simpa using List.find?_some hfind
        subst h1
        subst h2
        refine ⟨hid, rfl, rfl, ?_⟩
        intro y hy hne
        refine List.mem_map.mpr ⟨y, hy, ?_⟩
        rw [if_neg (by simpa using hne)]
      · simp [hsv] at h
  · intro s i
    constructor
    · intro x hx
      simp only [UserGroupsService.delete_user_group, userGroupsDelete, List.mem_filter,
        bne_iff_ne, ne_eq] at hx
      exact hx.2
    · intro x hx hne
      simp only [UserGroupsService.delete_user_group, userGroupsDelete, List.mem_filter,
        bne_iff_ne, ne_eq]
      exact ⟨hx, hne⟩

/-- Witness for C10 on `dbWUG`, whose two association rows both carry the
pair (1,1) under surrogate ids 1 and 2: get, update and delete at id 2
target exactly the row with surrogate id 2, and row 1 — same pair,
different id — survives the delete. -/
theorem C10_user_group_ops_by_surrogate_id_witness :
    ((⟨2, 1, 1⟩ : UserGroupsModel).id = 2 ∧
      (⟨2, 1, 1⟩ : UserGroupsModel) ∈ dbWUG.user_groups) ∧
    ((⟨2, 1, 1⟩ : UserGroupsModel).id = 2 ∧ (⟨2, 1, 1⟩ : UserGroupsModel).user_id = 1 ∧
      (⟨2, 1, 1⟩ : UserGroupsModel).group_id = 1 ∧
      (∀ x ∈ dbWUG.user_groups, x.id ≠ 2 → x ∈ dbWUG.user_groups)) ∧
    (⟨1, 1, 1⟩ : UserGroupsModel) ∈
      ((UserGroupsService.delete_user_group dbWUG 2).2).user_groups :=
  ⟨C10_user_group_ops_by_surrogate_id.1 dbWUG 2 ⟨2, 1, 1⟩ (by decide),
   C10_user_group_ops_by_surrogate_id.2.1 dbWUG 2 ⟨1, 1⟩ ⟨2, 1, 1⟩ dbWUG (by decide),
   (C10_user_group_ops_by_surrogate_id.2.2 dbWUG 2).2 ⟨1, 1, 1⟩ (by decide) (by decide)⟩

/-- Witness for C9 at `dbW` and id 1: deleting user 1 leaves the roles and
groups tables untouched and removes exactly the association rows that
reference user 1. -/
theorem C9_delete_frame_witness :
    ((UserService.delete_user dbW 1).2).roles = dbW.roles ∧
    ((UserService.delete_user dbW 1).2).groups = dbW.groups ∧
    ((⟨1, 1, 1⟩ : UserGroupsModel) ∈ ((UserService.delete_user dbW 1).2).user_groups ↔
      (⟨1, 1, 1⟩ : UserGroupsModel) ∈ dbW.user_groups ∧
        (⟨1, 1, 1⟩ : UserGroupsModel).user_id ≠ 1) :=
  ⟨(C9_delete_frame dbW 1).2.1.1,
   (C9_delete_frame dbW 1).2.1.2.1,
   (C9_delete_frame dbW 1).2.1.2.2.2 ⟨1, 1, 1⟩⟩
